import Mathlib

/-
Verification of the cookie/crumb authentication-negotiation and request-dispatch
subsystem of the yfinance fork (src/yfinance/data.py), as a shallow embedding.

The embedding models:
  - the process-global authentication state (utils.cookie, utils.crumb, the
    active cookie strategy, the transport session cookie jar, and the two
    pickle files of the credential cache) as an explicit `YfState`;
  - the network as a deterministic oracle `Env` giving the response of each
    fixed endpoint, the wall-clock time, and whether pickle writes succeed;
  - every outbound request as a `Req` value accumulated in a trace;
  - Python exceptions as an `Except PyErr` result;
  - the parameter dictionaries flowing through `TickerData.get` as references
    into a tiny explicit heap, so that in-place dict mutation and aliasing are
    visible (the retry branch mutates `request_args[...]`, and the claim that
    the caller dict is untouched is a real statement about the heap).

Python-semantics notes used repeatedly below, each justified at its use site:
  - `requests.Response.text` is always a `str` (empty string for an empty
    body), never `None`;
  - an `http.cookiejar.Cookie` object defines no `__eq__`, so comparing it
    with a string (`cookie == ''` in the source) is always `False`;
  - `True`/`False`/`None`/cookie objects are the values that flow through
    `utils.cookie` and `_load_cookie_basic`, captured by `PyCookieVal`;
  - `frozendict | dict` yields a `frozendict`, and item assignment on a
    `frozendict` raises `TypeError`.
-/

set_option linter.unusedVariables false

namespace Yf

/-- HTTP cookie (name/value pair) as held in a response or session cookie jar. -/
structure Cookie where
  name : String
  value : String
deriving DecidableEq, Repr

/-- The two acquisition strategies of the source (`self._cookie_strategy`). -/
inductive Strategy
  | basic
  | csrf
deriving DecidableEq, Repr

/-- The Python values that flow through the process-global `utils.cookie` and
through `_load_cookie_basic`: `None`, an `http.cookiejar.Cookie` object, or a
bool (`True` is set by the csrf strategy; `False` is returned by
`_load_cookie_basic` when the pickle file is older than a day). -/
inductive PyCookieVal
  | pyNone
  | pyCookie (c : Cookie)
  | pyBool (b : Bool)
deriving DecidableEq, Repr

/-- Python exceptions that the embedded code can raise. -/
inductive PyErr
  | invalidArg (msg : String)
  | attrError (msg : String)
  | typeError (msg : String)
deriving DecidableEq, Repr

/-- Insertion-ordered string dictionary with possibly-`None` values, modelling
a Python dict used for query parameters. Keys are unique by construction in
all dicts produced by the source. -/
abbrev PDict := List (String × Option String)

def dictHasKey (d : PDict) (k : String) : Bool :=
  d.any (fun kv => kv.1 == k)

/-- Python `d[k] = v`: overwrite in place if the key exists, else append. -/
def dictSetItem (d : PDict) (k : String) (v : Option String) : PDict :=
  if dictHasKey d k then d.map (fun kv => if kv.1 == k then (k, v) else kv)
  else d ++ [(k, v)]

/-- Python dict union `a | b` (PEP 584): keys of `a` in order, entries of `b`
overriding or appended. -/
def dictUnion (a b : PDict) : PDict :=
  b.foldl (fun acc kv => dictSetItem acc kv.1 kv.2) a

def dictLookup (d : PDict) (k : String) : Option (Option String) :=
  (d.find? (fun kv => kv.1 == k)).map (fun kv => kv.2)

/-- A tiny object store for the parameter dictionaries that flow through
`TickerData.get`, making dict object identity and in-place mutation explicit.
A reference is an index into the list; reads out of range give the empty dict. -/
abbrev Heap := List PDict

def heapRead (h : Heap) (r : Nat) : PDict := h.getD r []

def heapWrite (h : Heap) (r : Nat) (d : PDict) : Heap := h.set r d

/-- Allocate a fresh dict object; its reference is the previous heap size. -/
def heapAlloc (h : Heap) (d : PDict) : Heap × Nat := (h ++ [d], h.length)

/-- An HTTP response: status, body text, and the response cookie jar. -/
structure Response where
  status_code : Nat
  text : String
  cookies : List Cookie
deriving DecidableEq, Repr

/-- The arguments of an outbound data request (`request_args` in `get`). The
headers dict is passed through verbatim to the transport and inspected by no
claim, so it is elided. -/
structure DataArgs where
  url : String
  params : PDict
  cookies : Option (String × String)
  proxies : Option String
  timeout : Nat
deriving DecidableEq, Repr

/-- One outbound network request, tagged by the fixed endpoint it targets. -/
inductive Req
  | bootstrap (proxies : Option String) (timeout : Nat)
  | basicCrumb (cookies : String × String) (proxies : Option String) (timeout : Nat)
  | consentPage (proxies : Option String) (timeout : Nat)
  | consentPost (sessionId : String) (proxies : Option String) (timeout : Nat)
  | consentCopy (sessionId : String) (proxies : Option String) (timeout : Nat)
  | csrfCrumb (proxies : Option String) (timeout : Nat)
  | dataReq (args : DataArgs)
deriving DecidableEq, Repr

def Req.isDataReq : Req → Bool
  | .dataReq _ => true
  | _ => false

/-- The requests issued by the csrf (consent) strategy negotiation. -/
def Req.isCsrfReq : Req → Bool
  | .consentPage _ _ => true
  | .consentPost _ _ _ => true
  | .consentCopy _ _ _ => true
  | .csrfCrumb _ _ => true
  | _ => false

def Req.reqProxies : Req → Option String
  | .bootstrap p _ => p
  | .basicCrumb _ p _ => p
  | .consentPage p _ => p
  | .consentPost _ p _ => p
  | .consentCopy _ p _ => p
  | .csrfCrumb p _ => p
  | .dataReq a => a.proxies

def Req.reqTimeout : Req → Nat
  | .bootstrap _ t => t
  | .basicCrumb _ _ t => t
  | .consentPage _ t => t
  | .consentPost _ _ t => t
  | .consentCopy _ _ t => t
  | .csrfCrumb _ t => t
  | .dataReq a => a.timeout

/-- The consent page as seen through BeautifulSoup: the `value` of the hidden
input named `csrfToken` resp. `sessionId` when such an input tag is present. -/
structure ConsentPage where
  csrfToken : Option String
  sessionId : Option String
deriving DecidableEq, Repr

/-- Deterministic environment: what each fixed endpoint answers, the current
wall-clock time (seconds), and whether pickle writes to disk succeed.
`dataResp1`/`dataResp2` answer the first and the (at most one) retried data
request of a `get` call. -/
structure Env where
  now : Nat
  saveOk : Bool
  bootstrapResp : Response
  basicCrumbResp : Response
  consentResp : ConsentPage
  consentCookies : List Cookie
  csrfCrumbResp : Response
  dataResp1 : Response
  dataResp2 : Response
deriving DecidableEq, Repr

/-- The process-wide mutable state of the subsystem. -/
structure YfState where
  cookie_strategy : Strategy
  uCookie : PyCookieVal
  uCrumb : Option String
  sessionCookies : List Cookie
  cookieFile : Option (Nat × PyCookieVal)
  sessionFile : Option (Nat × List Cookie)
deriving DecidableEq, Repr

/-- `datetime.timedelta(days=1)` in seconds. -/
def oneDay : Nat := 86400

/-- Modelled from the spec: `utils.reuse_cookie` lives in the repository's
`utils` module, which is not under src/. The spec requires strategies to
consult the process-wide state before issuing network calls, so the flag is
taken to be enabled. -/
def reuse_cookie : Bool := true

/-- Modelled from the spec: `utils.reuse_crumb`, as for `reuse_cookie`. -/
def reuse_crumb : Bool := true

/-- Session cookie jar update (`self._session.cookies.update(cookies)`):
entries of the new jar override same-named entries of the old. -/
def jarUpdate (a b : List Cookie) : List Cookie :=
  a.filter (fun c => !(b.any (fun c2 => c2.name == c.name))) ++ b

/-- Whether the body contains the HTML document fragment the source greps for
(`'<html>' in utils.crumb`). -/
def hasInfix (pat : List Char) : List Char → Bool
  | [] => pat.isEmpty
  | c :: rest => pat.isPrefixOf (c :: rest) || hasInfix pat rest

def containsHtml (s : String) : Bool :=
  hasInfix "<html>".toList s.toList

instance {ε α : Type} [DecidableEq ε] [DecidableEq α] : DecidableEq (Except ε α) := fun x y =>
  match x, y with
  | Except.ok a, Except.ok b => decidable_of_iff (a = b) (by simp)
  | Except.error a, Except.error b => decidable_of_iff (a = b) (by simp)
  | Except.ok _, Except.error _ => isFalse (fun h => Except.noConfusion h)
  | Except.error _, Except.ok _ => isFalse (fun h => Except.noConfusion h)

namespace TickerData

/-- `TickerData._toggle_cookie_strategy`: switch strategy (csrf clears the
session jar on the way out) and unconditionally clear `utils.cookie` and
`utils.crumb`. -/
def toggle_cookie_strategy (s : YfState) : YfState :=
  if s.cookie_strategy = Strategy.csrf then
    { s with sessionCookies := [], cookie_strategy := Strategy.basic,
             uCookie := PyCookieVal.pyNone, uCrumb := none }
  else
    { s with cookie_strategy := Strategy.csrf,
             uCookie := PyCookieVal.pyNone, uCrumb := none }

/-- `TickerData._save_session_cookies`: pickle the session jar; I/O failure is
swallowed and reported as `False`. -/
def save_session_cookies (env : Env) (s : YfState) : Bool × YfState :=
  if env.saveOk then (true, { s with sessionFile := some (env.now, s.sessionCookies) })
  else (false, s)

/-- `TickerData._load_session_cookies`: absent file or a file older than a day
gives `False`; otherwise the pickled jar is merged into the session jar. -/
def load_session_cookies (env : Env) (s : YfState) : Bool × YfState :=
  match s.sessionFile with
  | none => (false, s)
  | some (mt, jar) =>
      if env.now - mt > oneDay then (false, s)
      else (true, { s with sessionCookies := jarUpdate s.sessionCookies jar })

/-- `TickerData._save_cookie_basic`: pickle whatever value is passed (the
source passes the result of `_get_cookie_basic`, which may be `None`, `False`
or a cookie object). -/
def save_cookie_basic (env : Env) (cookie : PyCookieVal) (s : YfState) : Bool × YfState :=
  if env.saveOk then (true, { s with cookieFile := some (env.now, cookie) })
  else (false, s)

/-- `TickerData._load_cookie_basic`. Note the source returns `False` (not
`None`) when the file is older than a day. The `if cookie == ''` test of the
source compares the unpickled object (never a `str` in this repository, see
`_save_cookie_basic`) with a string, which in Python is always false, so it is
no branch here. -/
def load_cookie_basic (env : Env) (s : YfState) : PyCookieVal :=
  match s.cookieFile with
  | none => PyCookieVal.pyNone
  | some (mt, payload) =>
      if env.now - mt > oneDay then PyCookieVal.pyBool false
      else payload

/-- `TickerData._get_cookie_basic`: reuse `utils.cookie` if not `None` (note:
`False` from a stale load also passes the `is not None` test), else consult the
pickle cache, else bootstrap against fc.yahoo.com and take the first cookie of
the response jar. The source's `if utils.cookie == ''` compares the cookie
object (not its value) with a string and is never true in Python, so the first
cookie is returned even when its value is empty. -/
def get_cookie_basic (env : Env) (proxy : Option String) (timeout : Nat) (s : YfState) :
    PyCookieVal × YfState × List Req :=
  if reuse_cookie = true ∧ s.uCookie ≠ PyCookieVal.pyNone then (s.uCookie, s, [])
  else
    let s1 := { s with uCookie := load_cookie_basic env s }
    if s1.uCookie ≠ PyCookieVal.pyNone then (s1.uCookie, s1, [])
    else
      let t := [Req.bootstrap proxy timeout]
      match env.bootstrapResp.cookies with
      | [] => (PyCookieVal.pyNone, s1, t)
      | c :: _ => (PyCookieVal.pyCookie c, { s1 with uCookie := PyCookieVal.pyCookie c }, t)

/-- `TickerData._get_crumb_basic`: reuse `utils.crumb` if set; obtain a cookie
via `self._get_cookie_basic()` — with default arguments in the source — and
fail (return `None`) if it is `None`. A `False` cookie (stale pickle) raises
`AttributeError` at `cookie.name`. Otherwise fetch the crumb endpoint; the
body is stored into `utils.crumb` and rejected only when it contains
`<html>` (the `utils.crumb is None` test is never true: `Response.text` is
always a `str`). -/
def get_crumb_basic (env : Env) (proxy : Option String) (timeout : Nat) (s : YfState) :
    Except PyErr (Option String) × YfState × List Req :=
  if reuse_crumb = true ∧ s.uCrumb ≠ none then (Except.ok s.uCrumb, s, [])
  else
    match get_cookie_basic env none 30 s with
    | (PyCookieVal.pyNone, s1, t1) => (Except.ok none, s1, t1)
    | (PyCookieVal.pyBool _, s1, t1) =>
        (Except.error (PyErr.attrError "bool object has no attribute name"), s1, t1)
    | (PyCookieVal.pyCookie c, s1, t1) =>
        let t2 := t1 ++ [Req.basicCrumb (c.name, c.value) proxy timeout]
        let text := env.basicCrumbResp.text
        let s2 := { s1 with uCrumb := some text }
        if containsHtml text then (Except.ok none, s2, t2)
        else (Except.ok (some text), s2, t2)

/-- `TickerData._get_cookie_and_crumb_basic`: cookie, then crumb (an exception
there propagates before the save), then persist the cookie value. -/
def get_cookie_and_crumb_basic (env : Env) (proxy : Option String) (timeout : Nat)
    (s : YfState) : Except PyErr (PyCookieVal × Option String) × YfState × List Req :=
  match get_cookie_basic env proxy timeout s with
  | (cookieVal, s1, t1) =>
      match get_crumb_basic env proxy timeout s1 with
      | (Except.error e, s2, t2) => (Except.error e, s2, t1 ++ t2)
      | (Except.ok crumb, s2, t2) =>
          let s3 := (save_cookie_basic env cookieVal s2).2
          (Except.ok (cookieVal, crumb), s3, t1 ++ t2)

/-- `TickerData._get_cookie_csrf`: reuse `utils.cookie`; else load persisted
session cookies; else fetch the consent page. A missing `csrfToken` input
returns `False`; a missing `sessionId` input is not checked in the source, so
`sessionIdInput['value']` raises `TypeError` (`None` is not subscriptable).
Otherwise the consent form is POSTed and confirmed and `utils.cookie := True`. -/
def get_cookie_csrf (env : Env) (proxy : Option String) (timeout : Nat) (s : YfState) :
    Except PyErr Bool × YfState × List Req :=
  if reuse_cookie = true ∧ s.uCookie ≠ PyCookieVal.pyNone then (Except.ok true, s, [])
  else
    match load_session_cookies env s with
    | (true, s1) => (Except.ok true, { s1 with uCookie := PyCookieVal.pyBool true }, [])
    | (false, s1) =>
        let t := [Req.consentPage proxy timeout]
        match env.consentResp.csrfToken with
        | none => (Except.ok false, s1, t)
        | some _ =>
            match env.consentResp.sessionId with
            | none => (Except.error (PyErr.typeError "NoneType object is not subscriptable"), s1, t)
            | some sid =>
                let t2 := t ++ [Req.consentPost sid proxy timeout, Req.consentCopy sid proxy timeout]
                let s2 := { s1 with
                  sessionCookies := jarUpdate s1.sessionCookies env.consentCookies,
                  uCookie := PyCookieVal.pyBool true }
                (Except.ok true, s2, t2)

/-- `TickerData._get_crumb_csrf`: reuse `utils.crumb`; else run the csrf
cookie step; on success fetch the crumb endpoint. The body is stored into
`utils.crumb` and rejected when it contains `<html>` or is empty. -/
def get_crumb_csrf (env : Env) (proxy : Option String) (timeout : Nat) (s : YfState) :
    Except PyErr (Option String) × YfState × List Req :=
  if reuse_crumb = true ∧ s.uCrumb ≠ none then (Except.ok s.uCrumb, s, [])
  else
    match get_cookie_csrf env proxy timeout s with
    | (Except.error e, s1, t1) => (Except.error e, s1, t1)
    | (Except.ok false, s1, t1) => (Except.ok none, s1, t1)
    | (Except.ok true, s1, t1) =>
        let t2 := t1 ++ [Req.csrfCrumb proxy timeout]
        let text := env.csrfCrumbResp.text
        let s2 := { s1 with uCrumb := some text }
        if containsHtml text ∨ text = "" then (Except.ok none, s2, t2)
        else (Except.ok (some text), s2, t2)

/-- `TickerData._get_cookie_and_crumb`: attempt the active strategy; on a
graceful failure toggle once and attempt the other. Both calls to
`self._get_crumb_csrf()` in the source pass no arguments, so the csrf side
always runs with `proxy=None, timeout=30`. -/
def get_cookie_and_crumb (env : Env) (proxy : Option String) (timeout : Nat) (s : YfState) :
    Except PyErr (PyCookieVal × Option String) × YfState × List Req :=
  if s.cookie_strategy = Strategy.csrf then
    match get_crumb_csrf env none 30 s with
    | (Except.error e, s1, t1) => (Except.error e, s1, t1)
    | (Except.ok (some cr), s1, t1) =>
        (Except.ok (PyCookieVal.pyNone, some cr), (save_session_cookies env s1).2, t1)
    | (Except.ok none, s1, t1) =>
        let s2 := toggle_cookie_strategy s1
        match get_cookie_and_crumb_basic env proxy timeout s2 with
        | (r, s3, t2) => (r, s3, t1 ++ t2)
  else
    match get_cookie_and_crumb_basic env proxy timeout s with
    | (Except.error e, s1, t1) => (Except.error e, s1, t1)
    | (Except.ok (cookieVal, crumb), s1, t1) =>
        if cookieVal = PyCookieVal.pyNone ∨ crumb = none then
          let s2 := toggle_cookie_strategy s1
          match get_crumb_csrf env none 30 s2 with
          | (Except.error e, s3, t2) => (Except.error e, s3, t1 ++ t2)
          | (Except.ok (some cr), s3, t2) =>
              (Except.ok (cookieVal, some cr), (save_session_cookies env s3).2, t1 ++ t2)
          | (Except.ok none, s3, t2) => (Except.ok (cookieVal, none), s3, t1 ++ t2)
        else (Except.ok (cookieVal, crumb), s1, t1)

/-- `TickerData._get_proxy` wraps the value as an https-keyed mapping; the
proxy value is opaque to every downstream consumer modelled here, so the
wrapper is elided. -/
def get_proxy (proxy : Option String) : Option String := proxy

/-- Result of `TickerData.get`: the returned response or raised exception, the
final process state, the final heap (dict store), and the trace of outbound
requests in order. -/
structure GetResult where
  result : Except PyErr Response
  state : YfState
  heap : Heap
  trace : List Req
deriving DecidableEq, Repr

/-- `TickerData.get`. `paramsRef` is the caller's params dict object (`none`
for Python `None`); `paramsFrozen` records whether that dict is a `frozendict`
(as when called through `cache_get`), in which case `params | crumbs` is again
a `frozendict` and the retry branch's item assignment raises `TypeError`.

Faithful to the source: the crumb-reservation check happens before any
request; the first acquisition runs via `self._get_cookie_and_crumb()` with
default arguments; `need_crumb` is `True`; `params | crumbs` is a fresh dict
object; on a first status >= 400 the strategy is toggled once, credentials are
re-acquired with the caller's proxy/timeout, the new crumb is written into the
fresh dict in place, and — only when the now-active strategy is `basic` — the
cookie is rebuilt from `cookie.name`/`cookie.value` without a `None` check. -/
def get (env : Env) (url : String) (paramsRef : Option Nat) (paramsFrozen : Bool)
    (proxy : Option String) (timeout : Nat) (s : YfState) (h : Heap) : GetResult :=
  let proxy := get_proxy proxy
  let pd : PDict := match paramsRef with
    | some r => heapRead h r
    | none => []
  if dictHasKey pd "crumb" then
    { result := Except.error (PyErr.invalidArg "dont manually add crumb to params dict, let data.py handle it"),
      state := s, heap := h, trace := [] }
  else
    let need_crumb := true
    match get_cookie_and_crumb env none 30 s with
    | (Except.error e, s1, t1) => { result := Except.error e, state := s1, heap := h, trace := t1 }
    | (Except.ok (cookieVal, crumb), s1, t1) =>
        let crumbs : PDict := match crumb with
          | some cr => [("crumb", some cr)]
          | none => []
        match (if s1.cookie_strategy = Strategy.basic ∧ cookieVal ≠ PyCookieVal.pyNone then
                 match cookieVal with
                 | PyCookieVal.pyCookie c => Except.ok (some (c.name, c.value))
                 | PyCookieVal.pyBool _ =>
                     Except.error (PyErr.attrError "bool object has no attribute name")
                 | PyCookieVal.pyNone => Except.ok none
               else (Except.ok none : Except PyErr (Option (String × String)))) with
        | Except.error e => { result := Except.error e, state := s1, heap := h, trace := t1 }
        | Except.ok cookiesArg =>
            let ar := heapAlloc h (dictUnion pd crumbs)
            let h1 := ar.1
            let raRef := ar.2
            let args1 : DataArgs :=
              { url := url, params := heapRead h1 raRef, cookies := cookiesArg,
                proxies := proxy, timeout := timeout }
            let t2 := t1 ++ [Req.dataReq args1]
            if 400 ≤ env.dataResp1.status_code ∧ need_crumb = true then
              let s2 := toggle_cookie_strategy s1
              match get_cookie_and_crumb env proxy timeout s2 with
              | (Except.error e, s3, t3) =>
                  { result := Except.error e, state := s3, heap := h1, trace := t2 ++ t3 }
              | (Except.ok (cookieVal2, crumb2), s3, t3) =>
                  if paramsFrozen then
                    { result := Except.error (PyErr.typeError "frozendict object does not support item assignment"),
                      state := s3, heap := h1, trace := t2 ++ t3 }
                  else
                    let h2 := heapWrite h1 raRef (dictSetItem (heapRead h1 raRef) "crumb" crumb2)
                    match (if s3.cookie_strategy = Strategy.basic then
                             match cookieVal2 with
                             | PyCookieVal.pyCookie c => Except.ok (some (c.name, c.value))
                             | PyCookieVal.pyNone =>
                                 Except.error (PyErr.attrError "NoneType object has no attribute name")
                             | PyCookieVal.pyBool _ =>
                                 Except.error (PyErr.attrError "bool object has no attribute name")
                           else (Except.ok cookiesArg : Except PyErr (Option (String × String)))) with
                    | Except.error e =>
                        { result := Except.error e, state := s3, heap := h2, trace := t2 ++ t3 }
                    | Except.ok cookiesArg2 =>
                        let args2 : DataArgs :=
                          { url := url, params := heapRead h2 raRef, cookies := cookiesArg2,
                            proxies := proxy, timeout := timeout }
                        { result := Except.ok env.dataResp2, state := s3, heap := h2,
                          trace := t2 ++ t3 ++ [Req.dataReq args2] }
            else
              { result := Except.ok env.dataResp1, state := s1, heap := h1, trace := t2 }

end TickerData

/-- A Python argument value as passed to `cache_get`: `None`, a string, an
int, a (mutable) dict, a (mutable) list, or the frozen forms produced by
`lru_cache_freezeargs` (`frozendict`, tuple). -/
inductive PyArg
  | pyNone
  | pyStr (s : String)
  | pyInt (n : Nat)
  | pyDict (entries : PDict)
  | pyList (elems : List String)
  | pyFrozen (entries : PDict)
  | pyTuple (elems : List String)
deriving DecidableEq, Repr

/-- The per-argument conversion of `lru_cache_freezeargs`: dict becomes
`frozendict`, list becomes tuple, everything else is passed through. -/
def freezearg : PyArg → PyArg
  | PyArg.pyDict e => PyArg.pyFrozen e
  | PyArg.pyList l => PyArg.pyTuple l
  | a => a

/-- Python `==` on dicts (and `frozendict`): equal exactly when they denote
the same key/value mapping, independent of insertion order. -/
def dictBeq (a b : PDict) : Bool :=
  a.all (fun kv => dictLookup b kv.1 == some kv.2) &&
    b.all (fun kv => dictLookup a kv.1 == some kv.2)

/-- Python `==` on argument values: mappings compare by content, everything
else structurally. -/
def pyArgEq : PyArg → PyArg → Bool
  | PyArg.pyFrozen a, PyArg.pyFrozen b => dictBeq a b
  | PyArg.pyDict a, PyArg.pyDict b => dictBeq a b
  | a, b => decide (a = b)

/-- The memoization key of `cache_get` after `lru_cache_freezeargs`: the
frozen versions of `(url, user_agent_headers, params, proxy, timeout)` (the
bound `self` is fixed). -/
structure CacheKey where
  url : String
  headers : PyArg
  params : PyArg
  proxies : PyArg
  timeout : Nat
deriving DecidableEq, Repr

/-- Key equality as used by the cache table: Python `==` componentwise. -/
def keyBeq (a b : CacheKey) : Bool :=
  a.url == b.url && pyArgEq a.headers b.headers && pyArgEq a.params b.params &&
    pyArgEq a.proxies b.proxies && a.timeout == b.timeout

/-- `cache_maxsize = 64` of the source. -/
def cache_maxsize : Nat := 64

/-- The `lru_cache(maxsize=64)` table: entries most-recently-used first. -/
structure LruCache where
  entries : List (CacheKey × Response)
deriving DecidableEq, Repr

def lruLookup (c : LruCache) (k : CacheKey) : Option Response :=
  (c.entries.find? (fun e => keyBeq e.1 k)).map (fun e => e.2)

/-- On a hit, `lru_cache` moves the entry to most-recently-used position. -/
def lruTouch (c : LruCache) (k : CacheKey) : LruCache :=
  match c.entries.find? (fun e => keyBeq e.1 k) with
  | none => c
  | some e => { entries := e :: c.entries.filter (fun e2 => !(keyBeq e2.1 k)) }

/-- On a miss whose call returns, the result is stored, evicting the least
recently used entry beyond capacity. Exceptions are not cached. -/
def lruInsert (c : LruCache) (k : CacheKey) (v : Response) : LruCache :=
  { entries := ((k, v) :: c.entries).take cache_maxsize }

namespace TickerData

/-- Result of a `cache_get` call: response or exception, final process state
and cache table, the number of underlying `TickerData.get` invocations (0 on a
hit, 1 on a miss), and the outbound network requests issued. -/
structure CacheGetResult where
  result : Except PyErr Response
  state : YfState
  cache : LruCache
  getCalls : Nat
  trace : List Req
deriving DecidableEq, Repr

/-- The params object handed to the underlying `get` by the wrapper: frozen
dict contents (a `frozendict` object, hence `paramsFrozen`), or Python `None`. -/
def argParamsDict : PyArg → Option PDict
  | PyArg.pyFrozen e => some e
  | _ => none

def argProxy : PyArg → Option String
  | PyArg.pyStr p => some p
  | _ => none

/-- The one underlying `TickerData.get` invocation a `cache_get` miss makes:
the frozen params mapping becomes the params dict object handed to `get`
(with its frozen-ness recorded), Python `None` stays `None`. -/
def underlying_get (env : Env) (url : String) (params proxies : PyArg) (timeout : Nat)
    (s : YfState) : GetResult :=
  match argParamsDict params with
  | some pd => get env url (some 0) true (argProxy proxies) timeout s [pd]
  | none => get env url none false (argProxy proxies) timeout s []

/-- `TickerData.cache_get`: `lru_cache_freezeargs` freezes the arguments, then
`lru_cache` looks the frozen key up; on a miss the (frozen) arguments are
passed to `TickerData.get`, and the response — but not an exception — is
stored under the key. -/
def cache_get (env : Env) (c : LruCache) (url : String)
    (headers params proxies : PyArg) (timeout : Nat) (s : YfState) : CacheGetResult :=
  let key : CacheKey :=
    { url := url, headers := freezearg headers, params := freezearg params,
      proxies := freezearg proxies, timeout := timeout }
  match lruLookup c key with
  | some resp =>
      { result := Except.ok resp, state := s, cache := lruTouch c key,
        getCalls := 0, trace := [] }
  | none =>
      let r := underlying_get env url key.params key.proxies timeout s
      match r.result with
      | Except.ok resp =>
          { result := Except.ok resp, state := r.state, cache := lruInsert c key resp,
            getCalls := 1, trace := r.trace }
      | Except.error e =>
          { result := Except.error e, state := r.state, cache := c,
            getCalls := 1, trace := r.trace }

/-- Two consecutive `cache_get` calls on the same instance, threading the
process state and the cache table. -/
def cache_get2 (env : Env) (c : LruCache)
    (url1 : String) (headers1 params1 proxies1 : PyArg) (timeout1 : Nat)
    (url2 : String) (headers2 params2 proxies2 : PyArg) (timeout2 : Nat)
    (s : YfState) : CacheGetResult × CacheGetResult :=
  let r1 := cache_get env c url1 headers1 params1 proxies1 timeout1 s
  let r2 := cache_get env r1.cache url2 headers2 params2 proxies2 timeout2 r1.state
  (r1, r2)

end TickerData

/-- The state of a freshly constructed `TickerData` in a fresh process with an
empty credential cache: default strategy `basic`, no cookie, no crumb. -/
def initState : YfState :=
  { cookie_strategy := Strategy.basic, uCookie := PyCookieVal.pyNone, uCrumb := none,
    sessionCookies := [], cookieFile := none, sessionFile := none }

/-- A benign baseline environment; test fixtures below override fields. -/
def baseEnv : Env :=
  { now := 1000000, saveOk := true,
    bootstrapResp := { status_code := 200, text := "", cookies := [] },
    basicCrumbResp := { status_code := 200, text := "crumbvalue", cookies := [] },
    consentResp := { csrfToken := none, sessionId := none },
    consentCookies := [],
    csrfCrumbResp := { status_code := 200, text := "crumbvalue", cookies := [] },
    dataResp1 := { status_code := 200, text := "payload1", cookies := [] },
    dataResp2 := { status_code := 200, text := "payload2", cookies := [] } }

/-- Environment whose clock is about 27.8 hours past the mtime `100000` of the
persisted files used below, so a record written at `100000` is stale. -/
def envStale : Env := { baseEnv with now := 200000 }

/-- State with a persisted basic cookie record older than 24 hours. -/
def sStaleCookie : YfState :=
  { initState with cookieFile := some (100000, PyCookieVal.pyCookie { name := "A", value := "1" }) }

/-- State with a persisted session-cookies record older than 24 hours. -/
def sStaleSession : YfState :=
  { initState with sessionFile := some (100000, [{ name := "B", value := "2" }]) }

/-- Consent page carrying a `csrfToken` hidden input but no `sessionId` input. -/
def envNoSessionId : Env :=
  { baseEnv with consentResp := { csrfToken := some "tok", sessionId := none } }

/-- Bootstrap endpoint answering with a single cookie whose value is empty. -/
def envEmptyCookieValue : Env :=
  { baseEnv with bootstrapResp := { status_code := 200, text := "", cookies := [{ name := "A", value := "" }] } }

/-- Crumb endpoints answering an empty body. -/
def envEmptyCrumb : Env :=
  { baseEnv with
    basicCrumbResp := { status_code := 200, text := "", cookies := [] },
    csrfCrumbResp := { status_code := 200, text := "", cookies := [] } }

/-- State holding a live in-memory basic cookie (and no crumb). -/
def sHasCookie : YfState :=
  { initState with uCookie := PyCookieVal.pyCookie { name := "A", value := "1" } }

/-- State holding the csrf in-memory cookie flag (and no crumb). -/
def sHasCsrfCookie : YfState :=
  { initState with uCookie := PyCookieVal.pyBool true }

/-- Environment for the retry-crash scenario: persisting credentials fails,
the bootstrap endpoint hands out no cookie, the consent page parses no
`csrfToken`, and the first data request is answered with status 400. -/
def envRetryCrash : Env :=
  { baseEnv with saveOk := false, dataResp1 := { status_code := 400, text := "", cookies := [] } }

/-- State of a `basic`-strategy instance that still holds working in-memory
credentials from an earlier call. -/
def sReusable : YfState :=
  { initState with uCookie := PyCookieVal.pyCookie { name := "A", value := "1" }, uCrumb := some "abc" }

/-- Environment where basic acquisition succeeds over the network but every
data request is answered with status 400. -/
def envAlways400 : Env :=
  { baseEnv with
    bootstrapResp := { status_code := 200, text := "", cookies := [{ name := "A", value := "1" }] },
    basicCrumbResp := { status_code := 200, text := "abc", cookies := [] },
    dataResp1 := { status_code := 400, text := "", cookies := [] } }

/-- Environment where the csrf strategy completes its whole handshake. -/
def envCsrfWorks : Env :=
  { baseEnv with consentResp := { csrfToken := some "tok", sessionId := some "sid" } }

/-- A `TickerData` instance whose active strategy is `csrf`. -/
def sCsrf : YfState := { initState with cookie_strategy := Strategy.csrf }

/-- First example params dict for the memoization claims. -/
def pDictAB : PyArg := PyArg.pyDict [("a", some "1"), ("b", some "2")]

/-- The same mapping as `pDictAB` with the opposite insertion order. -/
def pDictBA : PyArg := PyArg.pyDict [("b", some "2"), ("a", some "1")]

/-- C1: the claim states that whenever the first response has status >= 400,
`get` toggles once, re-acquires, retries exactly once and returns the second
response. Evaluating the code at a concrete failing input refutes the retry
part: with working in-memory credentials, a 400 first answer, persistence
failing and both strategies then failing to re-acquire, the re-acquisition
returns strategy `basic` with cookie `None`, and the retry rebuild executes
`cookie.name` on `None` — `get` raises `AttributeError` after having issued
exactly one data request, and no second response is ever returned. -/
theorem C1_retry_crash_eval :
    envRetryCrash.dataResp1.status_code = 400 ∧
    (TickerData.get envRetryCrash "u" none false none 30 sReusable []).result =
      Except.error (PyErr.attrError "NoneType object has no attribute name") ∧
    ((TickerData.get envRetryCrash "u" none false none 30 sReusable []).trace.filter
        Req.isDataReq).length = 1 := by
  decide

/-- C5: the claim states that after passing argument validation, `get` either
returns the final response or propagates a transport error, and that
negotiation never raises anything else even when both strategies fail.
Evaluating the code at a concrete input refutes it: with a persisted basic
cookie record older than 24 hours, `_load_cookie_basic` returns `False`,
`_get_cookie_basic` passes it through (it is not `None`), and
`_get_crumb_basic` executes `cookie.name` on a bool — `get` raises
`AttributeError` before issuing any network request at all. -/
theorem C5_stale_cache_crash_eval :
    (TickerData.get envStale "u" none false none 30 sStaleCookie []).result =
      Except.error (PyErr.attrError "bool object has no attribute name") ∧
    (TickerData.get envStale "u" none false none 30 sStaleCookie []).trace = [] := by
  decide

/-- C7: the claim states that both credential-cache lookups report a stale
record exactly like a missing one, forcing re-acquisition over the network.
Evaluating the code refutes this for `_load_cookie_basic`: a record older
than 24 hours yields `False` (not `None`), `_get_cookie_basic` returns that
`False` as the cookie without issuing the bootstrap request (no
re-acquisition), and the downstream crumb step then raises `AttributeError`.
The `_load_session_cookies` half does behave as claimed (`False` for both
missing and stale). -/
theorem C7_stale_cookie_lookup_eval :
    TickerData.load_cookie_basic envStale sStaleCookie = PyCookieVal.pyBool false ∧
    TickerData.load_cookie_basic envStale initState = PyCookieVal.pyNone ∧
    (TickerData.get_cookie_basic envStale none 30 sStaleCookie).1 = PyCookieVal.pyBool false ∧
    (TickerData.get_cookie_basic envStale none 30 sStaleCookie).2.2 = [] ∧
    (TickerData.get_crumb_basic envStale none 30 sStaleCookie).1 =
      Except.error (PyErr.attrError "bool object has no attribute name") ∧
    TickerData.load_session_cookies envStale sStaleSession = (false, sStaleSession) ∧
    TickerData.load_session_cookies envStale initState = (false, initState) := by
  decide

/-- C8: the claim states that a consent page lacking either hidden field makes
`_get_cookie_csrf` return `False` without raising. Evaluating the code at a
page that carries `csrfToken` but no `sessionId` input refutes it: the source
checks only `csrfTokenInput` for `None` and subscripts `sessionIdInput`
unconditionally, so the call raises `TypeError`. -/
theorem C8_missing_sessionId_eval :
    envNoSessionId.consentResp.csrfToken = some "tok" ∧
    envNoSessionId.consentResp.sessionId = none ∧
    (TickerData.get_cookie_csrf envNoSessionId none 30 initState).1 =
      Except.error (PyErr.typeError "NoneType object is not subscriptable") := by
  decide

/-- C9: the claim states that a first cookie with an empty value makes
`_get_cookie_basic` return `None`. Evaluating the code refutes the
empty-value half: the source compares the cookie object itself (never a
string) with `''`, which is always false in Python, so the empty-valued
cookie is returned. The empty-jar half does hold (`None` is returned). -/
theorem C9_empty_cookie_value_eval :
    (TickerData.get_cookie_basic envEmptyCookieValue none 30 initState).1 =
      PyCookieVal.pyCookie { name := "A", value := "" } ∧
    (TickerData.get_cookie_basic envEmptyCookieValue none 30 initState).1 ≠ PyCookieVal.pyNone ∧
    (TickerData.get_cookie_basic baseEnv none 30 initState).1 = PyCookieVal.pyNone := by
  decide

/-- C6 counterexample: the claim states that both `_get_crumb_basic` and
`_get_crumb_csrf` treat an empty response body as failure (`None`). At a
concrete input with an empty basic-crumb body and a live cookie,
`_get_crumb_basic` returns the empty string as the crumb, not `None` — the
basic strategy has no emptiness test. -/
theorem C6_counterexample :
    envEmptyCrumb.basicCrumbResp.text = "" ∧
    (TickerData.get_crumb_basic envEmptyCrumb none 30 sHasCookie).1 = Except.ok (some "") ∧
    (TickerData.get_crumb_basic envEmptyCrumb none 30 sHasCookie).1 ≠ Except.ok none := by
  decide

/-- C4 counterexample: the claim states that any two `cache_get` calls with
content-equal arguments trigger exactly one underlying `TickerData.get` call.
At a concrete input whose first data response has status 400, the underlying
`get` raises `TypeError` in the retry branch (the params object it would
mutate is the `frozendict` produced by `lru_cache_freezeargs`), the exception
is not cached, and the second call — with the same mapping in a different
insertion order, so an equal key — invokes `get` (and the network) again:
two underlying calls, and no stored response is returned. -/
theorem C4_counterexample :
    pyArgEq (freezearg pDictAB) (freezearg pDictBA) = true ∧
    (TickerData.cache_get2 envAlways400 { entries := [] }
        "u" PyArg.pyNone pDictAB PyArg.pyNone 30
        "u" PyArg.pyNone pDictBA PyArg.pyNone 30 initState).1.getCalls = 1 ∧
    (TickerData.cache_get2 envAlways400 { entries := [] }
        "u" PyArg.pyNone pDictAB PyArg.pyNone 30
        "u" PyArg.pyNone pDictBA PyArg.pyNone 30 initState).2.getCalls = 1 ∧
    (TickerData.cache_get2 envAlways400 { entries := [] }
        "u" PyArg.pyNone pDictAB PyArg.pyNone 30
        "u" PyArg.pyNone pDictBA PyArg.pyNone 30 initState).2.trace ≠ [] := by
  decide

theorem heapRead_cons_zero (d : PDict) (h : Heap) : heapRead (d :: h) 0 = d := rfl

/-- C2: a `params` dict that already contains the reserved key `crumb` makes
`get` raise the invalid-argument exception before any network request: the
result is the exception, the trace is empty, and the process state and the
heap (in particular the caller's dict) are untouched. -/
theorem C2_crumb_param_rejected (env : Env) (url : String) (frozenFlag : Bool)
    (proxy : Option String) (timeout : Nat) (s : YfState) (pd : PDict)
    (hk : dictHasKey pd "crumb" = true) :
    TickerData.get env url (some 0) frozenFlag proxy timeout s [pd] =
      { result := Except.error
          (PyErr.invalidArg "dont manually add crumb to params dict, let data.py handle it"),
        state := s, heap := [pd], trace := [] } := by
  unfold TickerData.get
  simp [heapRead_cons_zero, hk]

theorem C2_witness :
    dictHasKey [("crumb", some "x")] "crumb" = true ∧
    TickerData.get baseEnv "u" (some 0) false none 30 initState [[("crumb", some "x")]] =
      { result := Except.error
          (PyErr.invalidArg "dont manually add crumb to params dict, let data.py handle it"),
        state := initState, heap := [[("crumb", some "x")]], trace := [] } :=
  ⟨by decide,
   C2_crumb_param_rejected baseEnv "u" false none 30 initState [("crumb", some "x")] (by decide)⟩

/-- C3: the caller's `params` dict object (reference 0 of the heap) is
unchanged by every `get` call, over every environment and state — including
the >= 400 retry path, whose `crumb` assignment mutates only the fresh
`params | crumbs` object allocated at reference 1. -/
theorem C3_caller_params_unchanged (env : Env) (url : String) (frozenFlag : Bool)
    (proxy : Option String) (timeout : Nat) (s : YfState) (pd : PDict) :
    heapRead (TickerData.get env url (some 0) frozenFlag proxy timeout s [pd]).heap 0 = pd := by
  unfold TickerData.get
  dsimp only
  repeat' first
  | rfl
  | split

/-- The trace slot of an `if` whose branches share one trace. -/
theorem snd_snd_ite {α β : Type} (c : Prop) [Decidable c] (a1 a2 : α) (b1 b2 : β)
    (tr : List Req) : (if c then (a1, b1, tr) else (a2, b2, tr)).2.2 = tr := by
  split <;> rfl

theorem trace_cookie_basic_spec (env : Env) (p : Option String) (t : Nat) (s : YfState) :
    ∀ r ∈ (TickerData.get_cookie_basic env p t s).2.2, r = Req.bootstrap p t := by
  intro r hr
  unfold TickerData.get_cookie_basic at hr
  split at hr
  · simp_all
  · split at hr
    all_goals dsimp only at hr
    all_goals split at hr
    all_goals simp_all

theorem trace_crumb_basic_spec (env : Env) (p : Option String) (t : Nat) (s : YfState) :
    ∀ r ∈ (TickerData.get_crumb_basic env p t s).2.2,
      r.isCsrfReq = false ∧ r.isDataReq = false := by
  intro r hr
  unfold TickerData.get_crumb_basic at hr
  split at hr
  · simp_all
  · have hspec := trace_cookie_basic_spec env none 30 s
    set g := TickerData.get_cookie_basic env none 30 s with hg
    clear_value g
    obtain ⟨cv, s1, t1⟩ := g
    cases cv
    · have h2 := hspec r hr
      subst h2; exact ⟨rfl, rfl⟩
    · rw [snd_snd_ite] at hr
      simp only [List.mem_append, List.mem_singleton] at hr
      rcases hr with hr | hr
      · have h2 := hspec r hr
        subst h2; exact ⟨rfl, rfl⟩
      · subst hr; exact ⟨rfl, rfl⟩
    · have h2 := hspec r hr
      subst h2; exact ⟨rfl, rfl⟩

theorem trace_cookie_and_crumb_basic_spec (env : Env) (p : Option String) (t : Nat)
    (s : YfState) :
    ∀ r ∈ (TickerData.get_cookie_and_crumb_basic env p t s).2.2,
      r.isCsrfReq = false ∧ r.isDataReq = false := by
  intro r hr
  unfold TickerData.get_cookie_and_crumb_basic at hr
  have hspec1 := trace_cookie_basic_spec env p t s
  set g := TickerData.get_cookie_basic env p t s with hg
  clear_value g
  obtain ⟨cv, s1, t1⟩ := g
  dsimp only at hr
  have hspec2 := trace_crumb_basic_spec env p t s1
  set g2 := TickerData.get_crumb_basic env p t s1 with hg2
  clear_value g2
  obtain ⟨res, s2, t2⟩ := g2
  rcases res with e | crumb
  all_goals dsimp only at hr
  all_goals simp only [List.mem_append] at hr
  all_goals rcases hr with hr | hr
  · have h2 := hspec1 r hr
    subst h2; exact ⟨rfl, rfl⟩
  · exact hspec2 r hr
  · have h2 := hspec1 r hr
    subst h2; exact ⟨rfl, rfl⟩
  · exact hspec2 r hr

theorem trace_cookie_csrf_spec (env : Env) (p : Option String) (t : Nat) (s : YfState) :
    ∀ r ∈ (TickerData.get_cookie_csrf env p t s).2.2,
      r.isCsrfReq = true ∧ r.reqProxies = p ∧ r.reqTimeout = t ∧ r.isDataReq = false := by
  intro r hr
  unfold TickerData.get_cookie_csrf at hr
  repeat' split at hr
  all_goals simp only [List.mem_cons, List.mem_append, List.mem_singleton,
    List.not_mem_nil, or_false, false_or] at hr
  all_goals first
  | exact hr.elim
  | (subst hr; exact ⟨rfl, rfl, rfl, rfl⟩)
  | (rcases hr with hr | hr | hr
     all_goals subst hr
     all_goals exact ⟨rfl, rfl, rfl, rfl⟩)

theorem trace_crumb_csrf_spec (env : Env) (p : Option String) (t : Nat) (s : YfState) :
    ∀ r ∈ (TickerData.get_crumb_csrf env p t s).2.2,
      r.isCsrfReq = true ∧ r.reqProxies = p ∧ r.reqTimeout = t ∧ r.isDataReq = false := by
  intro r hr
  unfold TickerData.get_crumb_csrf at hr
  split at hr
  · simp_all
  · have hspec := trace_cookie_csrf_spec env p t s
    set g := TickerData.get_cookie_csrf env p t s with hg
    clear_value g
    obtain ⟨res, s1, t1⟩ := g
    rcases res with e | b
    · exact hspec r hr
    · cases b
      · exact hspec r hr
      · rw [snd_snd_ite] at hr
        simp only [List.mem_append, List.mem_singleton] at hr
        rcases hr with hr | hr
        · exact hspec r hr
        · subst hr; exact ⟨rfl, rfl, rfl, rfl⟩

/-- A request issued by the basic strategy satisfies the csrf-default clause
vacuously. -/
theorem noCsrf_concl {r : Req} (h2 : r.isCsrfReq = false ∧ r.isDataReq = false) :
    r.isDataReq = false ∧ (r.isCsrfReq = true → r.reqProxies = none ∧ r.reqTimeout = 30) := by
  refine ⟨h2.2, fun hc => ?_⟩
  rw [hc] at h2
  exact absurd h2.1 (by decide)

/-- A csrf negotiation request issued with the default arguments satisfies the
csrf-default clause. -/
theorem csrfAt_concl {r : Req}
    (h2 : r.isCsrfReq = true ∧ r.reqProxies = none ∧ r.reqTimeout = 30 ∧ r.isDataReq = false) :
    r.isDataReq = false ∧ (r.isCsrfReq = true → r.reqProxies = none ∧ r.reqTimeout = 30) :=
  ⟨h2.2.2.2, fun _ => ⟨h2.2.1, h2.2.2.1⟩⟩

theorem trace_cookie_and_crumb_spec (env : Env) (p : Option String) (t : Nat) (s : YfState) :
    ∀ r ∈ (TickerData.get_cookie_and_crumb env p t s).2.2,
      r.isDataReq = false ∧
        (r.isCsrfReq = true → r.reqProxies = none ∧ r.reqTimeout = 30) := by
  intro r hr
  unfold TickerData.get_cookie_and_crumb at hr
  split at hr
  · have hspecC := trace_crumb_csrf_spec env none 30 s
    set g := TickerData.get_crumb_csrf env none 30 s with hg
    clear_value g
    obtain ⟨res, s1, t1⟩ := g
    rcases res with e | o
    · exact csrfAt_concl (hspecC r hr)
    · rcases o with _ | cr
      · dsimp only at hr
        have hspecB := trace_cookie_and_crumb_basic_spec env p t
          (TickerData.toggle_cookie_strategy s1)
        set g2 := TickerData.get_cookie_and_crumb_basic env p t
          (TickerData.toggle_cookie_strategy s1) with hg2
        clear_value g2
        obtain ⟨res2, s3, t2⟩ := g2
        dsimp only at hr
        simp only [List.mem_append] at hr
        rcases hr with hr | hr
        · exact csrfAt_concl (hspecC r hr)
        · exact noCsrf_concl (hspecB r hr)
      · exact csrfAt_concl (hspecC r hr)
  · have hspecB := trace_cookie_and_crumb_basic_spec env p t s
    set g := TickerData.get_cookie_and_crumb_basic env p t s with hg
    clear_value g
    obtain ⟨res, s1, t1⟩ := g
    rcases res with e | pr
    · exact noCsrf_concl (hspecB r hr)
    · obtain ⟨cv, crumb⟩ := pr
      dsimp only at hr
      split at hr
      · have hspecC := trace_crumb_csrf_spec env none 30
          (TickerData.toggle_cookie_strategy s1)
        set g2 := TickerData.get_crumb_csrf env none 30
          (TickerData.toggle_cookie_strategy s1) with hg2
        clear_value g2
        obtain ⟨res2, s3, t2⟩ := g2
        rcases res2 with e2 | o2
        · dsimp only at hr
          simp only [List.mem_append] at hr
          rcases hr with hr | hr
          · exact noCsrf_concl (hspecB r hr)
          · exact csrfAt_concl (hspecC r hr)
        · rcases o2 with _ | cr
          · dsimp only at hr
            simp only [List.mem_append] at hr
            rcases hr with hr | hr
            · exact noCsrf_concl (hspecB r hr)
            · exact csrfAt_concl (hspecC r hr)
          · dsimp only at hr
            simp only [List.mem_append] at hr
            rcases hr with hr | hr
            · exact noCsrf_concl (hspecB r hr)
            · exact csrfAt_concl (hspecC r hr)
      · exact noCsrf_concl (hspecB r hr)

/-- C10: every csrf negotiation request issued during a
`_get_cookie_and_crumb` call — under the active csrf strategy as well as in
the fallback-to-csrf branch — carries `proxy = None` and `timeout = 30`,
whatever proxy and timeout the caller supplied: both call sites invoke
`self._get_crumb_csrf()` with its default arguments. -/
theorem C10_csrf_defaults (env : Env) (proxy : Option String) (timeout : Nat) (s : YfState)
    (r : Req) (hr : r ∈ (TickerData.get_cookie_and_crumb env proxy timeout s).2.2)
    (hc : r.isCsrfReq = true) : r.reqProxies = none ∧ r.reqTimeout = 30 :=
  (trace_cookie_and_crumb_spec env proxy timeout s r hr).2 hc

theorem C10_witness :
    Req.consentPage none 30 ∈
        (TickerData.get_cookie_and_crumb envCsrfWorks (some "PROX") 99 sCsrf).2.2 ∧
    (Req.consentPage none 30).isCsrfReq = true ∧
    ((Req.consentPage none 30).reqProxies = none ∧ (Req.consentPage none 30).reqTimeout = 30) :=
  ⟨by decide, by decide,
   C10_csrf_defaults envCsrfWorks (some "PROX") 99 sCsrf (Req.consentPage none 30)
     (by decide) (by decide)⟩

theorem filter_isData_nil {l : List Req}
    (h : ∀ r ∈ l, Req.isDataReq r = false) : l.filter Req.isDataReq = [] := by
  induction l with
  | nil => rfl
  | cons a l ih =>
      have ha := h a (by simp)
      simp [List.filter_cons, ha, ih (fun r hr => h r (by simp [hr]))]

/-- Supporting bound for the retry discipline: over every environment, caller
argument set and starting state, one `get` call issues at most two data
requests — the negotiation traces contain none, and the dispatch code has
exactly one retry. -/
theorem get_issues_at_most_two_data_requests (env : Env) (url : String)
    (paramsRef : Option Nat) (frozenFlag : Bool) (proxy : Option String) (timeout : Nat)
    (s : YfState) (h : Heap) :
    ((TickerData.get env url paramsRef frozenFlag proxy timeout s h).trace.filter
        Req.isDataReq).length ≤ 2 := by
  have hnil : ∀ (p : Option String) (t : Nat) (s0 : YfState),
      ((TickerData.get_cookie_and_crumb env p t s0).2.2).filter Req.isDataReq = [] :=
    fun p t s0 =>
      filter_isData_nil (fun r hr => (trace_cookie_and_crumb_spec env p t s0 r hr).1)
  unfold TickerData.get
  dsimp only
  split
  · simp
  · have h1 := hnil none 30 s
    set g := TickerData.get_cookie_and_crumb env none 30 s with hg
    clear_value g
    obtain ⟨res, s1, t1⟩ := g
    dsimp only at h1 ⊢
    rcases res with e | pr
    · simp [h1]
    · obtain ⟨cv, crumb⟩ := pr
      dsimp only
      split
      · simp [h1]
      · split
        · have h2 := hnil (TickerData.get_proxy proxy) timeout
            (TickerData.toggle_cookie_strategy s1)
          set g2 := TickerData.get_cookie_and_crumb env (TickerData.get_proxy proxy) timeout
            (TickerData.toggle_cookie_strategy s1) with hg2
          clear_value g2
          obtain ⟨res2, s3, t3⟩ := g2
          dsimp only at h2 ⊢
          rcases res2 with e2 | pr2
          · simp [List.filter_append, h1, h2, Req.isDataReq]
          · obtain ⟨cv2, crumb2⟩ := pr2
            dsimp only
            split
            · simp [List.filter_append, h1, h2, Req.isDataReq]
            · split
              · simp [List.filter_append, h1, h2, Req.isDataReq]
              · simp [List.filter_append, h1, h2, Req.isDataReq]
        · simp [List.filter_append, h1, Req.isDataReq]

/-- C6 (amended): the failure rules the two crumb acquisitions actually
implement — with no reusable crumb and a successful cookie step, `csrf`
rejects a body that is empty or contains an HTML fragment, while `basic`
rejects only a body containing an HTML fragment and returns an empty body as
the crumb. -/
theorem C6_amended_crumb_failure_rules (env : Env) (s s2 : YfState) (c : Cookie)
    (h1 : s.uCrumb = none) (h2 : s.uCookie = PyCookieVal.pyCookie c)
    (h3 : s2.uCrumb = none) (h4 : s2.uCookie = PyCookieVal.pyBool true) :
    (TickerData.get_crumb_basic env none 30 s).1 =
      Except.ok (if containsHtml env.basicCrumbResp.text then none
                 else some env.basicCrumbResp.text) ∧
    (TickerData.get_crumb_csrf env none 30 s2).1 =
      Except.ok (if containsHtml env.csrfCrumbResp.text ∨ env.csrfCrumbResp.text = "" then none
                 else some env.csrfCrumbResp.text) := by
  constructor
  · have hcb : TickerData.get_cookie_basic env none 30 s = (PyCookieVal.pyCookie c, s, []) := by
      unfold TickerData.get_cookie_basic
      rw [if_pos ⟨rfl, by simp [h2]⟩, h2]
    unfold TickerData.get_crumb_basic
    rw [if_neg (by simp [h1]), hcb]
    dsimp only
    split
    · rename_i hh
      simp [hh]
    · rename_i hh
      simp [hh]
  · have hcc : TickerData.get_cookie_csrf env none 30 s2 = (Except.ok true, s2, []) := by
      unfold TickerData.get_cookie_csrf
      rw [if_pos ⟨rfl, by simp [h4]⟩]
    unfold TickerData.get_crumb_csrf
    rw [if_neg (by simp [h3]), hcc]
    dsimp only
    split
    · rename_i hh
      simp [hh]
    · rename_i hh
      simp [hh]

theorem C6_witness :
    (sHasCookie.uCrumb = none ∧
     sHasCookie.uCookie = PyCookieVal.pyCookie { name := "A", value := "1" } ∧
     sHasCsrfCookie.uCrumb = none ∧ sHasCsrfCookie.uCookie = PyCookieVal.pyBool true) ∧
    ((TickerData.get_crumb_basic envEmptyCrumb none 30 sHasCookie).1 =
        Except.ok (if containsHtml envEmptyCrumb.basicCrumbResp.text then none
                   else some envEmptyCrumb.basicCrumbResp.text) ∧
     (TickerData.get_crumb_csrf envEmptyCrumb none 30 sHasCsrfCookie).1 =
        Except.ok (if containsHtml envEmptyCrumb.csrfCrumbResp.text ∨
                       envEmptyCrumb.csrfCrumbResp.text = "" then none
                   else some envEmptyCrumb.csrfCrumbResp.text)) :=
  ⟨⟨rfl, rfl, rfl, rfl⟩,
   C6_amended_crumb_failure_rules envEmptyCrumb sHasCookie sHasCsrfCookie
     { name := "A", value := "1" } rfl rfl rfl rfl⟩

/-- C4 (amended): starting from an empty cache, if the first `cache_get` call
returns a response without an exception, then a second call whose frozen key
is Python-equal (in particular, mapping arguments equal in content in any
insertion order) hits the cache entry the first call stored: the first call
makes the single underlying `TickerData.get` invocation, the second makes
none and issues no network request, and it returns the stored response. -/
theorem C4_amended_memoization (env : Env) (url1 url2 : String)
    (hd1 pm1 px1 hd2 pm2 px2 : PyArg) (tm1 tm2 : Nat) (s : YfState) (resp : Response)
    (hkey : keyBeq
        { url := url1, headers := freezearg hd1, params := freezearg pm1,
          proxies := freezearg px1, timeout := tm1 }
        { url := url2, headers := freezearg hd2, params := freezearg pm2,
          proxies := freezearg px2, timeout := tm2 } = true)
    (hok : (TickerData.cache_get env { entries := [] } url1 hd1 pm1 px1 tm1 s).result =
        Except.ok resp) :
    (TickerData.cache_get2 env { entries := [] } url1 hd1 pm1 px1 tm1
        url2 hd2 pm2 px2 tm2 s).1.getCalls = 1 ∧
    (TickerData.cache_get2 env { entries := [] } url1 hd1 pm1 px1 tm1
        url2 hd2 pm2 px2 tm2 s).2.getCalls = 0 ∧
    (TickerData.cache_get2 env { entries := [] } url1 hd1 pm1 px1 tm1
        url2 hd2 pm2 px2 tm2 s).2.result = Except.ok resp ∧
    (TickerData.cache_get2 env { entries := [] } url1 hd1 pm1 px1 tm1
        url2 hd2 pm2 px2 tm2 s).2.trace = [] := by
  unfold TickerData.cache_get2
  unfold TickerData.cache_get at hok ⊢
  dsimp only [lruLookup, List.find?] at hok ⊢
  set R := TickerData.underlying_get env url1 (freezearg pm1) (freezearg px1) tm1 s with hR
  clear_value R
  obtain ⟨Rres, Rstate, Rheap, Rtrace⟩ := R
  rcases Rres with e | resp'
  · exact absurd hok (by simp)
  · dsimp only at hok ⊢
    have hresp : resp' = resp := by
      injection hok
    subst hresp
    simp [lruInsert, lruLookup, lruTouch, List.find?, hkey, cache_maxsize]

theorem C4_witness :
    (keyBeq
        { url := "u", headers := freezearg PyArg.pyNone, params := freezearg pDictAB,
          proxies := freezearg PyArg.pyNone, timeout := 30 }
        { url := "u", headers := freezearg PyArg.pyNone, params := freezearg pDictBA,
          proxies := freezearg PyArg.pyNone, timeout := 30 } = true ∧
     (TickerData.cache_get baseEnv { entries := [] } "u" PyArg.pyNone pDictAB
        PyArg.pyNone 30 initState).result = Except.ok baseEnv.dataResp1) ∧
    ((TickerData.cache_get2 baseEnv { entries := [] } "u" PyArg.pyNone pDictAB PyArg.pyNone 30
        "u" PyArg.pyNone pDictBA PyArg.pyNone 30 initState).1.getCalls = 1 ∧
     (TickerData.cache_get2 baseEnv { entries := [] } "u" PyArg.pyNone pDictAB PyArg.pyNone 30
        "u" PyArg.pyNone pDictBA PyArg.pyNone 30 initState).2.getCalls = 0 ∧
     (TickerData.cache_get2 baseEnv { entries := [] } "u" PyArg.pyNone pDictAB PyArg.pyNone 30
        "u" PyArg.pyNone pDictBA PyArg.pyNone 30 initState).2.result =
        Except.ok baseEnv.dataResp1 ∧
     (TickerData.cache_get2 baseEnv { entries := [] } "u" PyArg.pyNone pDictAB PyArg.pyNone 30
        "u" PyArg.pyNone pDictBA PyArg.pyNone 30 initState).2.trace = []) :=
  ⟨⟨by decide, by decide⟩,
   C4_amended_memoization baseEnv "u" "u" PyArg.pyNone pDictAB PyArg.pyNone
     PyArg.pyNone pDictBA PyArg.pyNone 30 30 initState baseEnv.dataResp1
     (by decide) (by decide)⟩

end Yf
